import Mathlib

/-!
Verification development for the OnboardBuddy program (`onboard_buddy.py`).

The program reads a grid of new-hire rows from a spreadsheet, filters the
rows whose start date falls inside a lookahead window, and for each hire
sends a welcome email, posts a chat message, and creates a calendar event.

This file gives a shallow embedding of the program: pure Python functions
become Lean functions; external services (SMTP, the chat webhook, the
calendar insert call, the spreadsheet fetch) become explicit oracles of
type `request → Except PyErr response`; observable side effects (console
prints, messages sent) are collected in an explicit `Effects` log; a Python
exception that escapes a function is an `Except.error` / `Option PyErr`
result.  Machine-level detail: Python `str.strip` / `str.lower` are
modelled on the ASCII range (all strings the program compares are ASCII);
`datetime.strptime(s, "%Y-%m-%d")` is modelled after CPython's `_strptime`
regex (`%Y` = exactly four digits, `%m` = `1[0-2]|0[1-9]|[1-9]`,
`%d` = `3[01]|[12]\d|0[1-9]|[1-9]`, whole string consumed) followed by the
`datetime` constructor's calendar validity check; `date` comparison and
`timedelta` addition are modelled on proleptic-Gregorian ordinals, exactly
as `datetime.date.toordinal` defines them.
-/

/-- Python exceptions are modelled by their message / class name. -/
abbrev PyErr : Type := String

deriving instance DecidableEq for Except

/-- ASCII model of Python `str.lower` on a single character. -/
def lowerChar (c : Char) : Char :=
  if c.toNat ≥ 65 && c.toNat ≤ 90 then Char.ofNat (c.toNat + 32) else c

/-- Model of Python `str.lower` (the program only lowercases ASCII labels). -/
def pyLower (s : String) : String := ⟨s.data.map lowerChar⟩

/-- Model of Python `str.strip` with no argument: remove leading and
trailing whitespace. -/
def pyStrip (s : String) : String :=
  ⟨((s.data.dropWhile Char.isWhitespace).reverse.dropWhile Char.isWhitespace).reverse⟩

/-- `h.strip().lower()` — the normalisation applied to each header label. -/
def normCell (s : String) : String := pyLower (pyStrip s)

/-- Value of an ASCII digit character. -/
def digitVal (c : Char) : Nat := c.toNat - 48

/-- `%Y` in CPython `strptime`: exactly four digits. -/
def parseY4 : List Char → Option (Nat × List Char)
  | a :: b :: c :: d :: rest =>
    if a.isDigit && b.isDigit && c.isDigit && d.isDigit then
      some (1000 * digitVal a + 100 * digitVal b + 10 * digitVal c + digitVal d, rest)
    else none
  | _ => none

/-- `%m` in CPython `strptime`: the regex `1[0-2]|0[1-9]|[1-9]`,
alternatives tried left to right. -/
def parseMonth2 : List Char → Option (Nat × List Char)
  | [] => none
  | c :: rest =>
    match rest with
    | c2 :: rest2 =>
      if c = '1' && ('0' ≤ c2 && c2 ≤ '2') then some (10 + digitVal c2, rest2)
      else if c = '0' && ('1' ≤ c2 && c2 ≤ '9') then some (digitVal c2, rest2)
      else if '1' ≤ c && c ≤ '9' then some (digitVal c, c2 :: rest2)
      else none
    | [] => if '1' ≤ c && c ≤ '9' then some (digitVal c, []) else none

/-- `%d` in CPython `strptime`: the regex `3[01]|[12]\d|0[1-9]|[1-9]`,
alternatives tried left to right. -/
def parseDay2 : List Char → Option (Nat × List Char)
  | [] => none
  | c :: rest =>
    match rest with
    | c2 :: rest2 =>
      if c = '3' && (c2 = '0' || c2 = '1') then some (30 + digitVal c2, rest2)
      else if (c = '1' || c = '2') && c2.isDigit then
        some (10 * digitVal c + digitVal c2, rest2)
      else if c = '0' && ('1' ≤ c2 && c2 ≤ '9') then some (digitVal c2, rest2)
      else if '1' ≤ c && c ≤ '9' then some (digitVal c, c2 :: rest2)
      else none
    | [] => if '1' ≤ c && c ≤ '9' then some (digitVal c, []) else none

/-- A proleptic-Gregorian calendar date, as carried by `datetime.date`. -/
structure Date where
  year : Nat
  month : Nat
  day : Nat
deriving DecidableEq, Repr

/-- Gregorian leap-year rule, as used by `datetime`. -/
def isLeap (y : Nat) : Bool := y % 4 = 0 && (y % 100 ≠ 0 || y % 400 = 0)

/-- Number of days in a month, as enforced by the `datetime` constructor. -/
def daysInMonth (y m : Nat) : Nat :=
  if m = 2 then (if isLeap y then 29 else 28)
  else if m = 4 || m = 6 || m = 9 || m = 11 then 30
  else 31

/-- Model of `datetime.strptime(s, "%Y-%m-%d").date()`: `none` when Python
raises `ValueError` (regex mismatch, unconverted data, or an invalid
calendar date), `some d` when it returns the date `d`. -/
def parseDate (s : String) : Option Date :=
  match parseY4 s.data with
  | some (y, '-' :: r1) =>
    match parseMonth2 r1 with
    | some (m, '-' :: r2) =>
      match parseDay2 r2 with
      | some (d, []) =>
        if 1 ≤ y && d ≤ daysInMonth y m then some ⟨y, m, d⟩ else none
      | _ => none
    | _ => none
  | _ => none

/-- Days counted before month `m` in year `y`. -/
def daysBeforeMonth (y m : Nat) : Nat :=
  let base := [0, 31, 59, 90, 120, 151, 181, 212, 243, 273, 304, 334].getD (m - 1) 0
  if 2 < m && isLeap y then base + 1 else base

/-- `datetime.date.toordinal`: day count with 0001-01-01 ↦ 1.  Python's
`date` comparison and `timedelta` addition coincide with ordinal
comparison and addition, which is how the embedding uses it. -/
def toOrdinal (dt : Date) : Nat :=
  let y := dt.year - 1
  365 * y + y / 4 - y / 100 + y / 400 + daysBeforeMonth dt.year dt.month + dt.day

/-- `today <= d <= today + timedelta(days=w)`, on ordinals. -/
def inWindow (today : Date) (w : Int) (d : Date) : Bool :=
  decide (toOrdinal today ≤ toOrdinal d) &&
    decide ((toOrdinal d : Int) ≤ (toOrdinal today : Int) + w)

/-- The `Employee` dataclass of `onboard_buddy.py` (the spec's HireRecord). -/
structure Employee where
  name : String
  email : String
  department : String
  start_date : String
  manager : String
deriving DecidableEq, Repr

/-- The five column indices resolved from the header row. -/
structure Indices where
  iName : Nat
  iEmail : Nat
  iDept : Nat
  iStart : Nat
  iMgr : Nat
deriving DecidableEq, Repr

/-- The inner `col(name, default)` helper of `parse_upcoming_employees`:
`header.index(name)` on the normalised header, or `default` when Python
raises `ValueError` because the label is absent. -/
def col (header : List String) (label : String) (default : Nat) : Nat :=
  (header.findIdx? (fun h => h == label)).getD default

/-- The five `col` calls of `parse_upcoming_employees`, applied to the
normalised (`strip().lower()`) header row. -/
def resolvedIndices (header : List String) : Indices :=
  let hn := header.map normCell
  ⟨col hn "name" 0, col hn "email" 1, col hn "department" 2,
   col hn "startdate" 3, col hn "manager" 4⟩

/-- The `for row in values[1:]` loop of `parse_upcoming_employees`.
A row shorter than 5 cells is skipped; `row[i_start]` raising `IndexError`
inside the `try` is a skip, and so is a `strptime` failure; a row inside
the window is turned into an `Employee`, where an out-of-range index in
the *uncaught* field accesses raises `IndexError` and aborts the whole
call (`Except.error`). -/
def parseRows (idx : Indices) (today : Date) (w : Int) :
    List (List String) → Except PyErr (List Employee)
  | [] => .ok []
  | row :: rest =>
    if row.length < 5 then parseRows idx today w rest
    else
      match row[idx.iStart]? with
      | none => parseRows idx today w rest
      | some c =>
        match parseDate (pyStrip c) with
        | none => parseRows idx today w rest
        | some d =>
          if inWindow today w d then
            match row[idx.iName]?, row[idx.iEmail]?, row[idx.iDept]?, row[idx.iMgr]? with
            | some nm, some em, some dp, some mg =>
              match parseRows idx today w rest with
              | .error e => .error e
              | .ok tailHires =>
                .ok (⟨pyStrip nm, pyStrip em, pyStrip dp, pyStrip c, pyStrip mg⟩ :: tailHires)
            | _, _, _, _ => .error "IndexError"
          else parseRows idx today w rest

/-- `parse_upcoming_employees(values, window_days)`.  `today` — which the
Python code reads from the UTC clock — is an explicit parameter here. -/
def parse_upcoming_employees (values : List (List String)) (w : Int) (today : Date) :
    Except PyErr (List Employee) :=
  match values with
  | [] => .ok []
  | header :: rows => parseRows (resolvedIndices header) today w rows

example : parseDate "2025-06-03" = some ⟨2025, 6, 3⟩ := by decide
example : parseDate "2025-6-3" = some ⟨2025, 6, 3⟩ := by decide
example : parseDate "2025-02-30" = none := by decide
example : parseDate "2024-02-29" = some ⟨2024, 2, 29⟩ := by decide
example : parseDate "not-a-date" = none := by decide
example : parseDate "12025-01-01" = none := by decide
example : parseDate "0000-01-01" = none := by decide
example : parseDate " 2025-06-03" = none := by decide
example : toOrdinal ⟨1, 1, 1⟩ = 1 := by decide
example : toOrdinal ⟨2025, 6, 3⟩ - toOrdinal ⟨2025, 6, 1⟩ = 2 := by decide

example :
    parse_upcoming_employees
      [["Name", "Email", "Department", "StartDate", "Manager"],
       ["Asha K", "a@x.com", "Engineering", "2025-06-03", "R. Singh"]]
      7 ⟨2025, 6, 1⟩ =
    .ok [⟨"Asha K", "a@x.com", "Engineering", "2025-06-03", "R. Singh"⟩] := by decide

example :
    parse_upcoming_employees
      [["Name", "Email", "Department", "StartDate", "Manager"],
       ["Asha K", "a@x.com", "Engineering", "2025-06-11", "R. Singh"]]
      7 ⟨2025, 6, 1⟩ = .ok [] := by decide

/-- The outgoing welcome email, as assembled with `MIMEText`:
subject, `From`, `To`, body. -/
structure EmailMsg where
  subject : String
  msgFrom : String
  msgTo : String
  body : String
deriving DecidableEq, Repr

/-- One `requests.post(SLACK_WEBHOOK, json={"text": ...}, timeout=10)` call. -/
structure SlackPost where
  url : String
  text : String
  timeoutSecs : Nat
deriving DecidableEq, Repr

/-- The calendar event body built by `create_day1_event`. -/
structure GEvent where
  summary : String
  description : String
  startDateTime : String
  startTimeZone : String
  endDateTime : String
  endTimeZone : String
  attendees : List String
deriving DecidableEq, Repr

/-- One `events().insert(calendarId=..., body=..., sendUpdates="all")` call. -/
structure InsertCall where
  calendarId : String
  body : GEvent
  sendUpdates : String
deriving DecidableEq, Repr

/-- The calendar API's response to an insert; `created.get("htmlLink")`
reads the (possibly absent) link field. -/
structure InsertedEvent where
  htmlLink : Option String
deriving DecidableEq, Repr

/-- Observable side effects of a run: console prints, spreadsheet ranges
fetched, emails handed to SMTP, chat webhook posts, calendar inserts. -/
structure Effects where
  prints : List String
  fetches : List String
  emails : List EmailMsg
  slacks : List SlackPost
  inserts : List InsertCall
deriving DecidableEq, Repr

def Effects.empty : Effects := ⟨[], [], [], [], []⟩

def Effects.append (a b : Effects) : Effects :=
  ⟨a.prints ++ b.prints, a.fetches ++ b.fetches, a.emails ++ b.emails,
   a.slacks ++ b.slacks, a.inserts ++ b.inserts⟩

def Effects.concat (l : List Effects) : Effects :=
  l.foldr Effects.append Effects.empty

/-- Effects consisting of a single console print. -/
def printEff (s : String) : Effects := ⟨[s], [], [], [], []⟩

/-- The configuration the program reads from the environment at start. -/
structure Config where
  sheetId : String
  sheetTab : String
  windowDays : Int
  calendarId : String
  timezone : String
  gmailUser : String
  gmailAppPassword : String
  slackWebhook : String

/-- `True` / `False`, as Python prints a bool inside an f-string. -/
def pyBoolStr : Bool → String
  | true => "True"
  | false => "False"

/-- `str(x)` for `x : Optional[str]`, as printed inside an f-string. -/
def pyOptStr : Option String → String
  | none => "None"
  | some s => s

def exOk {α : Type} : Except PyErr α → Bool
  | .ok _ => true
  | .error _ => false

def exErr {α : Type} : Except PyErr α → Option PyErr
  | .ok _ => none
  | .error e => some e

/-- `build_welcome_email(emp)`. -/
def build_welcome_email (emp : Employee) : String :=
  "Hi " ++ emp.name ++ ",\n\n" ++
  "Welcome to the " ++ emp.department ++ " team! Your start date is " ++
  emp.start_date ++ ".\n" ++
  "You\x27ll report to " ++ emp.manager ++
  ". Before Day 1 you\x27ll receive account setup, laptop, and schedule details.\n\n" ++
  "See you soon,\nHR Team"

/-- The `MIMEText` message `send_email_if_configured` builds. -/
def emailMsgOf (cfg : Config) (emp : Employee) : EmailMsg :=
  ⟨"Welcome to the team, " ++ emp.name ++ "!", cfg.gmailUser, emp.email,
   build_welcome_email emp⟩

/-- `send_email_if_configured(emp)`.  `smtpO` models the whole
`SMTP_SSL`/`login`/`send_message` interaction: `Except.error` is any
exception raised inside the `try` block.  Returns the boolean result and
the observable effects. -/
def send_email_if_configured (cfg : Config) (smtpO : EmailMsg → Except PyErr Unit)
    (emp : Employee) : Bool × Effects :=
  if cfg.gmailUser == "" || cfg.gmailAppPassword == "" then
    (true, printEff "✉️  Gmail creds not set — skipping email.")
  else
    match smtpO (emailMsgOf cfg emp) with
    | .ok _ =>
      (true, ⟨["✅ Email sent to " ++ emp.email], [], [emailMsgOf cfg emp], [], []⟩)
    | .error e =>
      (false, ⟨["❌ Email error: " ++ e], [], [emailMsgOf cfg emp], [], []⟩)

/-- The f-string payload text of the chat message. -/
def slackText (emp : Employee) : String :=
  "🎉 New Team Member: " ++ emp.name ++ " starts " ++ emp.start_date ++
  " in " ++ emp.department ++ " (Mgr: " ++ emp.manager ++ ")"

/-- The webhook post `post_slack_if_configured` makes (timeout 10 s). -/
def slackPostOf (cfg : Config) (emp : Employee) : SlackPost :=
  ⟨cfg.slackWebhook, slackText emp, 10⟩

/-- `post_slack_if_configured(emp)`.  `postO` models
`requests.post(...)` followed by `raise_for_status()`. -/
def post_slack_if_configured (cfg : Config) (postO : SlackPost → Except PyErr Unit)
    (emp : Employee) : Bool × Effects :=
  if cfg.slackWebhook == "" then
    (true, printEff "💬 Slack webhook not set — skipping Slack.")
  else
    match postO (slackPostOf cfg emp) with
    | .ok _ =>
      (true, ⟨["✅ Slack posted for " ++ emp.name], [], [], [slackPostOf cfg emp], []⟩)
    | .error e =>
      (false, ⟨["❌ Slack error: " ++ e], [], [], [slackPostOf cfg emp], []⟩)

/-- Zero-pad to two digits, as in `datetime.isoformat`. -/
def pad2 (n : Nat) : String := if n < 10 then "0" ++ toString n else toString n

/-- Zero-pad to four digits, as `isoformat` pads the year. -/
def pad4 (n : Nat) : String :=
  if n < 10 then "000" ++ toString n
  else if n < 100 then "00" ++ toString n
  else if n < 1000 then "0" ++ toString n
  else toString n

/-- `datetime(y, m, d, hh, mm).isoformat()`. -/
def isoAt (d : Date) (hh mm : Nat) : String :=
  pad4 d.year ++ "-" ++ pad2 d.month ++ "-" ++ pad2 d.day ++ "T" ++
  pad2 hh ++ ":" ++ pad2 mm ++ ":00"

/-- The event dictionary of `create_day1_event`: `strptime` of the start
date with `hour=10, minute=0`, and an end 30 minutes later — which, since
10:00 + 30 min never crosses midnight, is 10:30 on the same date. -/
def day1EventBody (tz : String) (emp : Employee) (d : Date) : GEvent :=
  ⟨"Day 1 Orientation: " ++ emp.name,
   "Welcome " ++ emp.name ++ " to " ++ emp.department ++ "!\n" ++
     "Manager: " ++ emp.manager ++ "\n" ++
     "Agenda: HR paperwork, accounts, laptop, and intro.",
   isoAt d 10 0, tz, isoAt d 10 30, tz, [emp.email]⟩

/-- `create_day1_event(cal_service, calendar_id, tz, emp)`.  `insO` models
`events().insert(...).execute()`.  No exception is caught: a `strptime`
failure or an API error is an `Except.error` result. -/
def create_day1_event (insO : InsertCall → Except PyErr InsertedEvent)
    (calendar_id tz : String) (emp : Employee) :
    Except PyErr (Option String) × Effects :=
  match parseDate emp.start_date with
  | none => (.error "ValueError", Effects.empty)
  | some d =>
    let call : InsertCall := ⟨calendar_id, day1EventBody tz emp d, "all"⟩
    match insO call with
    | .error e => (.error e, ⟨[], [], [], [], [call]⟩)
    | .ok created => (.ok created.htmlLink, ⟨[], [], [], [], [call]⟩)

/-- One iteration of the `for emp in hires` loop in `main`: email, then
chat, then calendar, then the per-hire outcome print.  The first
component is the exception escaping the iteration, if any. -/
def perHire (cfg : Config) (smtpO : EmailMsg → Except PyErr Unit)
    (postO : SlackPost → Except PyErr Unit)
    (insO : InsertCall → Except PyErr InsertedEvent) (emp : Employee) :
    Option PyErr × Effects :=
  let r1 := send_email_if_configured cfg smtpO emp
  let r2 := post_slack_if_configured cfg postO emp
  let r3 := create_day1_event insO cfg.calendarId cfg.timezone emp
  match r3.1 with
  | .error e => (some e, r1.2.append (r2.2.append r3.2))
  | .ok link =>
    (none,
     r1.2.append (r2.2.append (r3.2.append (printEff
       ("📅 Event created for " ++ emp.name ++ ": " ++ pyOptStr link ++
        " | email=" ++ pyBoolStr r1.1 ++ " slack=" ++ pyBoolStr r2.1)))))

/-- The whole `for emp in hires` loop: an uncaught exception in one
iteration halts the loop and propagates; effects of completed (and of the
failing) iterations remain observable. -/
def processHires (cfg : Config) (smtpO : EmailMsg → Except PyErr Unit)
    (postO : SlackPost → Except PyErr Unit)
    (insO : InsertCall → Except PyErr InsertedEvent) :
    List Employee → Option PyErr × Effects
  | [] => (none, Effects.empty)
  | emp :: rest =>
    let r := perHire cfg smtpO postO insO emp
    match r.1 with
    | some e => (some e, r.2)
    | none =>
      let rr := processHires cfg smtpO postO insO rest
      (rr.1, r.2.append rr.2)

namespace OnboardBuddy

/-- `main()`.  `fetchO` models `get_sheets_service()` plus the
`values().get(...).execute()` call (any exception there propagates);
`today` is the UTC date the parser reads from the clock.  Returns the
exception escaping `main`, if any, together with the observable effects. -/
def main (cfg : Config) (today : Date)
    (fetchO : String → Except PyErr (List (List String)))
    (smtpO : EmailMsg → Except PyErr Unit)
    (postO : SlackPost → Except PyErr Unit)
    (insO : InsertCall → Except PyErr InsertedEvent) :
    Option PyErr × Effects :=
  if cfg.sheetId == "" then
    (none, printEff "❗ Please set SHEET_ID in your .env")
  else
    let range := cfg.sheetTab ++ "!A:E"
    match fetchO range with
    | .error e => (some e, ⟨[], [range], [], [], []⟩)
    | .ok values =>
      let eff1 : Effects :=
        ⟨["✅ Got " ++ toString values.length ++ " rows from " ++ range],
         [range], [], [], []⟩
      match parse_upcoming_employees values cfg.windowDays today with
      | .error e => (some e, eff1)
      | .ok hires =>
        let eff2 := eff1.append (printEff
          ("🔎 Upcoming hires in next " ++ toString cfg.windowDays ++
           " days: " ++ toString hires.length))
        if hires.isEmpty then
          (none, eff2.append (printEff "Nothing to process."))
        else
          let r := processHires cfg smtpO postO insO hires
          (r.1, eff2.append r.2)

end OnboardBuddy

/-- A data row that yields a `HireRecord`: at least 5 cells, the cell at
the resolved start-date index exists and parses as `YYYY-MM-DD`, and the
date lies inside the window. -/
def rowQualifies (idx : Indices) (today : Date) (w : Int) (row : List String) : Bool :=
  if row.length < 5 then false
  else
    match row[idx.iStart]? with
    | none => false
    | some c =>
      match parseDate (pyStrip c) with
      | none => false
      | some d => inWindow today w d

/-- The `Employee` built from a qualifying row (out-of-range cells read as
`""`; on rows the parser actually returns they always exist). -/
def rowRecord (idx : Indices) (row : List String) : Employee :=
  ⟨pyStrip ((row[idx.iName]?).getD ""), pyStrip ((row[idx.iEmail]?).getD ""),
   pyStrip ((row[idx.iDept]?).getD ""), pyStrip ((row[idx.iStart]?).getD ""),
   pyStrip ((row[idx.iMgr]?).getD "")⟩

/-- The rows claim C3 is about: fewer than 5 cells, or a start-date cell
that is present but does not parse as a `YYYY-MM-DD` date. -/
def skippableRow (idx : Indices) (row : List String) : Bool :=
  if row.length < 5 then true
  else
    match row[idx.iStart]? with
    | none => false
    | some c => (parseDate (pyStrip c)).isNone

theorem parseRows_ok (idx : Indices) (today : Date) (w : Int) :
    ∀ (rows : List (List String)) (res : List Employee),
      parseRows idx today w rows = .ok res →
      res = (rows.filter (rowQualifies idx today w)).map (rowRecord idx) := by
  intro rows
  induction rows with
  | nil =>
    intro res h
    simp only [parseRows] at h
    cases h
    simp
  | cons row rest ih =>
    intro res h
    simp only [parseRows] at h
    by_cases h5 : row.length < 5
    · rw [if_pos h5] at h
      simp [List.filter_cons, rowQualifies, h5, ih res h]
    · rw [if_neg h5] at h
      cases hs : row[idx.iStart]? with
      | none =>
        simp only [hs] at h
        simp [List.filter_cons, rowQualifies, h5, hs, ih res h]
      | some c =>
        simp only [hs] at h
        cases hd : parseDate (pyStrip c) with
        | none =>
          simp only [hd] at h
          simp [List.filter_cons, rowQualifies, h5, hs, hd, ih res h]
        | some d =>
          simp only [hd] at h
          by_cases hw : inWindow today w d
          · rw [if_pos hw] at h
            cases hn : row[idx.iName]? with
            | none => simp only [hn] at h; exact absurd h (by simp)
            | some nm =>
            cases he : row[idx.iEmail]? with
            | none => simp only [hn, he] at h; exact absurd h (by simp)
            | some em =>
            cases hdp : row[idx.iDept]? with
            | none => simp only [hn, he, hdp] at h; exact absurd h (by simp)
            | some dp =>
            cases hm : row[idx.iMgr]? with
            | none => simp only [hn, he, hdp, hm] at h; exact absurd h (by simp)
            | some mg =>
              simp only [hn, he, hdp, hm] at h
              cases hr : parseRows idx today w rest with
              | error e => simp only [hr] at h; exact absurd h (by simp)
              | ok tailHires =>
                simp only [hr] at h
                cases h
                simp [List.filter_cons, rowQualifies, rowRecord, h5, hs, hd, hw,
                  hn, he, hdp, hm, ih tailHires hr]
          · rw [if_neg hw] at h
            simp [List.filter_cons, rowQualifies, h5, hs, hd, hw, ih res h]

theorem parseRows_drop_skippable (idx : Indices) (today : Date) (w : Int) :
    ∀ rows : List (List String),
      parseRows idx today w rows =
        parseRows idx today w (rows.filter (fun r => !(skippableRow idx r))) := by
  intro rows
  induction rows with
  | nil => rfl
  | cons row rest ih =>
    by_cases h5 : row.length < 5
    · have hsk : skippableRow idx row = true := by simp [skippableRow, h5]
      rw [show (row :: rest).filter (fun r => !(skippableRow idx r)) =
            rest.filter (fun r => !(skippableRow idx r)) from by
          simp [List.filter_cons, hsk]]
      rw [show parseRows idx today w (row :: rest) = parseRows idx today w rest from by
        simp only [parseRows]; rw [if_pos h5]]
      exact ih
    · cases hs : row[idx.iStart]? with
      | none =>
        have hsk : skippableRow idx row = false := by simp [skippableRow, h5, hs]
        rw [show (row :: rest).filter (fun r => !(skippableRow idx r)) =
              row :: rest.filter (fun r => !(skippableRow idx r)) from by
            simp [List.filter_cons, hsk]]
        simp only [parseRows]
        simp only [if_neg h5]
        simp only [hs]
        exact ih
      | some c =>
        cases hd : parseDate (pyStrip c) with
        | none =>
          have hsk : skippableRow idx row = true := by simp [skippableRow, h5, hs, hd]
          rw [show (row :: rest).filter (fun r => !(skippableRow idx r)) =
                rest.filter (fun r => !(skippableRow idx r)) from by
              simp [List.filter_cons, hsk]]
          rw [show parseRows idx today w (row :: rest) = parseRows idx today w rest from by
            simp only [parseRows]; rw [if_neg h5]; simp only [hs, hd]]
          exact ih
        | some d =>
          have hsk : skippableRow idx row = false := by simp [skippableRow, h5, hs, hd]
          rw [show (row :: rest).filter (fun r => !(skippableRow idx r)) =
                row :: rest.filter (fun r => !(skippableRow idx r)) from by
              simp [List.filter_cons, hsk]]
          simp only [parseRows]
          simp only [if_neg h5]
          simp only [hs, hd]
          by_cases hw : inWindow today w d
          · simp only [if_pos hw]; rw [ih]
          · simp only [if_neg hw]; exact ih

theorem col_default_of_absent (l : List String) (label : String) (d : Nat)
    (h : label ∉ l) : col l label d = d := by
  have hn : l.findIdx? (fun x => x == label) = none := by
    rw [List.findIdx?_eq_none_iff]
    intro x hx
    simp only [beq_eq_false_iff_ne, ne_eq]
    exact fun hxl => h (hxl ▸ hx)
  simp [col, hn]

theorem resolvedIndices_congr (h1 h2 : List String)
    (hnorm : h1.map normCell = h2.map normCell) :
    resolvedIndices h1 = resolvedIndices h2 := by
  simp [resolvedIndices, hnorm]

/-! ### Fixtures used by witness and counterexample theorems -/

/-- A canonical header row (mixed case, as in the spec scenario). -/
def hdr0 : List String := ["Name", "Email", "Department", "StartDate", "Manager"]

/-- The canonical lowercase header labels. -/
def hdrLower : List String := ["name", "email", "department", "startdate", "manager"]

/-- The same labels with scrambled casing. -/
def hdrMixed : List String := ["NaMe", "EMAIL", "dEpArTmEnT", "StartDate", "MANAGER"]

/-- The UTC date taken as "today" in all concrete fixtures. -/
def today0 : Date := ⟨2025, 6, 1⟩

/-- The sample hire record of the spec scenario. -/
def asha : Employee := ⟨"Asha K", "a@x.com", "Engineering", "2025-06-03", "R. Singh"⟩

/-- Sample data rows: one inside the window, one outside it, one too short,
one with an unparseable date. -/
def winRows : List (List String) :=
  [["Asha K", "a@x.com", "Engineering", "2025-06-03", "R. Singh"],
   ["Vikram", "v@x.com", "Sales", "2025-06-20", "P. Rao"],
   ["Short", "s@x.com"],
   ["Bad", "b@x.com", "Ops", "not-a-date", "Q. Lee"]]

/-- A data row with only 4 cells whose cell at the resolved start-date
index (3) holds a date inside the window. -/
def shortRow : List String := ["Asha K", "a@x.com", "Engineering", "2025-06-03"]

/-! ### Claims about the Row Parser -/

/-- C1 (counterexample): the claim says the parser returns exactly the data
rows whose start-date cell parses as `YYYY-MM-DD` with a date inside
`[today, today+W]`.  In the grid `[hdr0, shortRow]` the single data row has
only 4 cells; its cell at the resolved start-date index 3 is
`"2025-06-03"`, which parses and lies inside the window
`[2025-06-01, 2025-06-08]`, yet the parser returns the empty list, because
the code first discards every row with fewer than 5 cells. -/
theorem claim_C1_counterexample :
    (resolvedIndices hdr0).iStart = 3 ∧
    shortRow[3]? = some "2025-06-03" ∧
    parseDate (pyStrip "2025-06-03") = some ⟨2025, 6, 3⟩ ∧
    inWindow today0 7 ⟨2025, 6, 3⟩ = true ∧
    parse_upcoming_employees [hdr0, shortRow] 7 today0 = .ok [] := by
  decide

/-- C1 (amended): whenever `parse_upcoming_employees` returns without
raising, it returns exactly the data rows that have at least 5 cells and
whose cell at the resolved start-date index exists and parses as
`YYYY-MM-DD` with a date in the inclusive range `[today, today+W]` (UTC
calendar dates), as `HireRecord`s in source row order; in particular no
record with a start date outside that range is ever returned. -/
theorem claim_C1 (header : List String) (rows : List (List String)) (w : Int)
    (today : Date) (res : List Employee)
    (h : parse_upcoming_employees (header :: rows) w today = .ok res) :
    res = (rows.filter (rowQualifies (resolvedIndices header) today w)).map
      (rowRecord (resolvedIndices header)) := by
  simp only [parse_upcoming_employees] at h
  exact parseRows_ok _ _ _ rows res h

theorem claim_C1_witness :
    parse_upcoming_employees (hdr0 :: winRows) 7 today0 = .ok [asha] ∧
    [asha] = (winRows.filter (rowQualifies (resolvedIndices hdr0) today0 7)).map
      (rowRecord (resolvedIndices hdr0)) :=
  ⟨by decide, claim_C1 hdr0 winRows 7 today0 [asha] (by decide)⟩

/-- C3: a data row with fewer than 5 cells and a data row whose start-date
cell does not parse as a valid `YYYY-MM-DD` date are excluded from the
output without any exception, and every other row of the grid is processed
exactly as it would be if the excluded rows were absent: the parser's
entire result (including any exception) is unchanged when those rows are
filtered out of the grid. -/
theorem claim_C3 (header : List String) (rows : List (List String)) (w : Int)
    (today : Date) :
    parse_upcoming_employees (header :: rows) w today =
      parse_upcoming_employees
        (header :: rows.filter (fun r => !(skippableRow (resolvedIndices header) r)))
        w today := by
  simp only [parse_upcoming_employees]
  exact parseRows_drop_skippable _ _ _ rows

/-- C7: header matching is case-insensitive — two header rows with the same
`strip().lower()` normalisation (in particular, any mixed-case variant of
the canonical lowercase labels) resolve to the same column indices, so the
parser returns the same result on the same data rows. -/
theorem claim_C7 (h1 h2 : List String) (rows : List (List String)) (w : Int)
    (today : Date) (hnorm : h1.map normCell = h2.map normCell) :
    parse_upcoming_employees (h1 :: rows) w today =
      parse_upcoming_employees (h2 :: rows) w today := by
  simp only [parse_upcoming_employees]
  rw [resolvedIndices_congr h1 h2 hnorm]

theorem claim_C7_witness :
    hdrMixed.map normCell = hdrLower.map normCell ∧
    parse_upcoming_employees (hdrMixed :: winRows) 7 today0 =
      parse_upcoming_employees (hdrLower :: winRows) 7 today0 :=
  ⟨by decide, claim_C7 hdrMixed hdrLower winRows 7 today0 (by decide)⟩

/-- C8: each expected header label that is absent from the (normalised)
header row falls back to its fixed positional column — name ↦ 0,
email ↦ 1, department ↦ 2, startdate ↦ 3, manager ↦ 4 — and the
resolution never fails. -/
theorem claim_C8 (header : List String) :
    (("name" ∉ header.map normCell) → (resolvedIndices header).iName = 0) ∧
    (("email" ∉ header.map normCell) → (resolvedIndices header).iEmail = 1) ∧
    (("department" ∉ header.map normCell) → (resolvedIndices header).iDept = 2) ∧
    (("startdate" ∉ header.map normCell) → (resolvedIndices header).iStart = 3) ∧
    (("manager" ∉ header.map normCell) → (resolvedIndices header).iMgr = 4) := by
  refine ⟨fun h => ?_, fun h => ?_, fun h => ?_, fun h => ?_, fun h => ?_⟩ <;>
    simp [resolvedIndices, col_default_of_absent _ _ _ h]

theorem claim_C8_witness :
    (resolvedIndices ["id", "when"]).iName = 0 ∧
    (resolvedIndices ["id", "when"]).iEmail = 1 ∧
    (resolvedIndices ["id", "when"]).iDept = 2 ∧
    (resolvedIndices ["id", "when"]).iStart = 3 ∧
    (resolvedIndices ["id", "when"]).iMgr = 4 := by
  have h := claim_C8 ["id", "when"]
  exact ⟨h.1 (by decide), h.2.1 (by decide), h.2.2.1 (by decide),
    h.2.2.2.1 (by decide), h.2.2.2.2 (by decide)⟩

/-! ### Fixtures for the notifier and orchestrator claims -/

/-- Configuration with no optional notifier configured. -/
def cfgPlain : Config :=
  ⟨"sheet-1", "SHEET1", 7, "primary", "Asia/Kolkata", "", "", ""⟩

/-- Configuration with the Gmail sender pair set. -/
def cfgEmail : Config :=
  ⟨"sheet-1", "SHEET1", 7, "primary", "Asia/Kolkata", "hr@corp.com", "app-pass", ""⟩

/-- Configuration with only the sender address set (half-configured pair). -/
def cfgHalfEmail : Config :=
  ⟨"sheet-1", "SHEET1", 7, "primary", "Asia/Kolkata", "hr@corp.com", "", ""⟩

/-- Configuration with the chat webhook set. -/
def cfgSlack : Config :=
  ⟨"sheet-1", "SHEET1", 7, "primary", "Asia/Kolkata", "", "",
   "https://hooks.example/T1"⟩

/-- Configuration with no data-source identifier. -/
def cfgNoSheet : Config :=
  ⟨"", "SHEET1", 7, "primary", "Asia/Kolkata", "", "", ""⟩

def smtpOkO : EmailMsg → Except PyErr Unit := fun _ => .ok ()

def smtpFailO : EmailMsg → Except PyErr Unit := fun _ => .error "SMTPAuthenticationError"

def slackOkO : SlackPost → Except PyErr Unit := fun _ => .ok ()

def insOkO : InsertCall → Except PyErr InsertedEvent :=
  fun _ => .ok ⟨some "https://calendar.example/evt1"⟩

def fetchNilO : String → Except PyErr (List (List String)) := fun _ => .ok []

/-! ### Claims about the notifiers -/

/-- C4: with both sender credentials unset the Email Notifier returns
`true` and performs no network call (its effect log holds only the skip
print, no email); with credentials set, any error from the SMTP
interaction is caught and reported as `false` — the function is total, so
nothing propagates to the caller. -/
theorem claim_C4 (cfg : Config) (smtpO : EmailMsg → Except PyErr Unit)
    (emp : Employee) :
    (cfg.gmailUser = "" ∧ cfg.gmailAppPassword = "" →
      send_email_if_configured cfg smtpO emp =
        (true, printEff "✉️  Gmail creds not set — skipping email.")) ∧
    (cfg.gmailUser ≠ "" → cfg.gmailAppPassword ≠ "" →
      ∀ e : PyErr, smtpO (emailMsgOf cfg emp) = .error e →
        send_email_if_configured cfg smtpO emp =
          (false, ⟨["❌ Email error: " ++ e], [], [emailMsgOf cfg emp], [], []⟩)) := by
  constructor
  · rintro ⟨h1, h2⟩
    simp [send_email_if_configured, h1, h2]
  · intro h1 h2 e he
    simp [send_email_if_configured, h1, h2, he]

theorem claim_C4_witness :
    send_email_if_configured cfgPlain smtpFailO asha =
      (true, printEff "✉️  Gmail creds not set — skipping email.") ∧
    send_email_if_configured cfgEmail smtpFailO asha =
      (false, ⟨["❌ Email error: " ++ "SMTPAuthenticationError"], [],
        [emailMsgOf cfgEmail asha], [], []⟩) :=
  ⟨(claim_C4 cfgPlain smtpFailO asha).1 ⟨rfl, rfl⟩,
   (claim_C4 cfgEmail smtpFailO asha).2 (by decide) (by decide)
     "SMTPAuthenticationError" rfl⟩

/-- C10: a half-configured sender pair behaves as unconfigured: if either
the sender address or the app password is the empty string, the Email
Notifier returns `true` and attempts no SMTP interaction (its effect log
holds only the skip print). -/
theorem claim_C10 (cfg : Config) (smtpO : EmailMsg → Except PyErr Unit)
    (emp : Employee) (h : cfg.gmailUser = "" ∨ cfg.gmailAppPassword = "") :
    send_email_if_configured cfg smtpO emp =
      (true, printEff "✉️  Gmail creds not set — skipping email.") := by
  cases h with
  | inl h => simp [send_email_if_configured, h]
  | inr h => simp [send_email_if_configured, h]

theorem claim_C10_witness :
    (cfgHalfEmail.gmailUser = "" ∨ cfgHalfEmail.gmailAppPassword = "") ∧
    send_email_if_configured cfgHalfEmail smtpFailO asha =
      (true, printEff "✉️  Gmail creds not set — skipping email.") :=
  ⟨Or.inr rfl, claim_C10 cfgHalfEmail smtpFailO asha (Or.inr rfl)⟩

/-- C5 (counterexample): the Chat Notifier's message text is not the
claimed fixed format "New Team Member: {name} starts {date} in
{department} (Mgr: {manager})" — the code prepends "🎉 ".  At the sample
record the posted text differs from the claimed one. -/
theorem claim_C5_counterexample :
    (post_slack_if_configured cfgSlack slackOkO asha).2.slacks =
      [⟨"https://hooks.example/T1",
        "🎉 New Team Member: Asha K starts 2025-06-03 in Engineering (Mgr: R. Singh)",
        10⟩] ∧
    slackText asha ≠
      "New Team Member: Asha K starts 2025-06-03 in Engineering (Mgr: R. Singh)" := by
  decide

/-- C5 (amended): when a webhook endpoint is configured, the Chat Notifier
posts exactly one message to that endpoint, as an HTTP POST with the
bounded timeout of 10 seconds, whose text is the fixed format
"🎉 New Team Member: {name} starts {date} in {department} (Mgr: {manager})"
with the record's fields substituted. -/
theorem claim_C5 (cfg : Config) (postO : SlackPost → Except PyErr Unit)
    (emp : Employee) (h : cfg.slackWebhook ≠ "") :
    (post_slack_if_configured cfg postO emp).2.slacks =
      [⟨cfg.slackWebhook,
        "🎉 New Team Member: " ++ emp.name ++ " starts " ++ emp.start_date ++
          " in " ++ emp.department ++ " (Mgr: " ++ emp.manager ++ ")", 10⟩] := by
  simp only [post_slack_if_configured]
  rw [if_neg (by simp [h])]
  cases hp : postO (slackPostOf cfg emp) <;> simp [slackPostOf, slackText]

theorem claim_C5_witness :
    (post_slack_if_configured cfgSlack slackOkO asha).2.slacks =
      [⟨cfgSlack.slackWebhook,
        "🎉 New Team Member: " ++ asha.name ++ " starts " ++ asha.start_date ++
          " in " ++ asha.department ++ " (Mgr: " ++ asha.manager ++ ")", 10⟩] :=
  claim_C5 cfgSlack slackOkO asha (by decide)

/-- C6: one invocation of the Calendar Notifier on a record with a valid
start date performs exactly one insert call, with `sendUpdates="all"`
(notify all attendees), whose event is titled "Day 1 Orientation: {name}",
starts at 10:00 local time on the start date (`isoAt d 10 0` in the given
timezone), ends at 10:30 the same day (30-minute duration), and invites
the hire's email as sole attendee; on a successful insert it returns the
created event's reference link. -/
theorem claim_C6 (insO : InsertCall → Except PyErr InsertedEvent)
    (calId tz : String) (emp : Employee) (d : Date)
    (hd : parseDate emp.start_date = some d) :
    (create_day1_event insO calId tz emp).2.inserts =
      [⟨calId,
        ⟨"Day 1 Orientation: " ++ emp.name,
         "Welcome " ++ emp.name ++ " to " ++ emp.department ++ "!\n" ++
           "Manager: " ++ emp.manager ++ "\n" ++
           "Agenda: HR paperwork, accounts, laptop, and intro.",
         isoAt d 10 0, tz, isoAt d 10 30, tz, [emp.email]⟩, "all"⟩] ∧
    (∀ r : InsertedEvent, insO ⟨calId, day1EventBody tz emp d, "all"⟩ = .ok r →
      (create_day1_event insO calId tz emp).1 = .ok r.htmlLink) := by
  constructor
  · simp only [create_day1_event, hd]
    cases hp : insO ⟨calId, day1EventBody tz emp d, "all"⟩ <;>
      simp [hp, day1EventBody]
  · intro r hr
    simp [create_day1_event, hd, hr]

theorem claim_C6_witness :
    parseDate asha.start_date = some ⟨2025, 6, 3⟩ ∧
    (create_day1_event insOkO "primary" "Asia/Kolkata" asha).2.inserts =
      [⟨"primary",
        ⟨"Day 1 Orientation: " ++ asha.name,
         "Welcome " ++ asha.name ++ " to " ++ asha.department ++ "!\n" ++
           "Manager: " ++ asha.manager ++ "\n" ++
           "Agenda: HR paperwork, accounts, laptop, and intro.",
         isoAt ⟨2025, 6, 3⟩ 10 0, "Asia/Kolkata",
         isoAt ⟨2025, 6, 3⟩ 10 30, "Asia/Kolkata", [asha.email]⟩, "all"⟩] ∧
    (create_day1_event insOkO "primary" "Asia/Kolkata" asha).1 =
      .ok (some "https://calendar.example/evt1") :=
  ⟨by decide,
   (claim_C6 insOkO "primary" "Asia/Kolkata" asha ⟨2025, 6, 3⟩ (by decide)).1,
   (claim_C6 insOkO "primary" "Asia/Kolkata" asha ⟨2025, 6, 3⟩ (by decide)).2
     ⟨some "https://calendar.example/evt1"⟩ rfl⟩

/-! ### Claims about the orchestrator loop -/

/-- `True` exactly when the calendar-event creation for `emp` raises no
exception. -/
def calendarOk (insO : InsertCall → Except PyErr InsertedEvent) (cfg : Config)
    (emp : Employee) : Bool :=
  exOk (create_day1_event insO cfg.calendarId cfg.timezone emp).1

theorem Effects.append_empty (e : Effects) : e.append Effects.empty = e := by
  cases e; simp [Effects.append, Effects.empty]

theorem Effects.concat_cons (x : Effects) (l : List Effects) :
    Effects.concat (x :: l) = x.append (Effects.concat l) := rfl

theorem exErr_eq_none {α : Type} (x : Except PyErr α) (h : exOk x = true) :
    exErr x = none := by
  cases x <;> simp_all [exOk, exErr]

theorem perHire_fst (cfg : Config) (sO : EmailMsg → Except PyErr Unit)
    (pO : SlackPost → Except PyErr Unit)
    (iO : InsertCall → Except PyErr InsertedEvent) (emp : Employee) :
    (perHire cfg sO pO iO emp).1 =
      exErr (create_day1_event iO cfg.calendarId cfg.timezone emp).1 := by
  simp only [perHire]
  cases h : (create_day1_event iO cfg.calendarId cfg.timezone emp).1 <;>
    simp [h, exErr]

theorem processHires_fst (cfg : Config) (sO : EmailMsg → Except PyErr Unit)
    (pO : SlackPost → Except PyErr Unit)
    (iO : InsertCall → Except PyErr InsertedEvent) :
    ∀ hires : List Employee,
      (processHires cfg sO pO iO hires).1 =
        ((hires.dropWhile (calendarOk iO cfg)).head?).bind
          (fun b => exErr (create_day1_event iO cfg.calendarId cfg.timezone b).1) := by
  intro hires
  induction hires with
  | nil => simp [processHires]
  | cons emp rest ih =>
    by_cases hok : calendarOk iO cfg emp
    · have hnone : (perHire cfg sO pO iO emp).1 = none := by
        rw [perHire_fst]
        exact exErr_eq_none _ hok
      simp [processHires, hnone, List.dropWhile_cons, hok, ih]
    · have hsome : (perHire cfg sO pO iO emp).1 =
          exErr (create_day1_event iO cfg.calendarId cfg.timezone emp).1 :=
        perHire_fst cfg sO pO iO emp
      simp only [calendarOk, Bool.not_eq_true] at hok
      cases he : (create_day1_event iO cfg.calendarId cfg.timezone emp).1 with
      | ok v => rw [he] at hok; simp [exOk] at hok
      | error e =>
        rw [he] at hsome
        simp only [exErr] at hsome
        simp [processHires, hsome, List.dropWhile_cons, calendarOk, he, exOk, exErr]

theorem processHires_snd (cfg : Config) (sO : EmailMsg → Except PyErr Unit)
    (pO : SlackPost → Except PyErr Unit)
    (iO : InsertCall → Except PyErr InsertedEvent) :
    ∀ hires : List Employee,
      (processHires cfg sO pO iO hires).2 =
        Effects.concat
          (((hires.takeWhile (calendarOk iO cfg)).map
              (fun e => (perHire cfg sO pO iO e).2)) ++
            (match (hires.dropWhile (calendarOk iO cfg)).head? with
             | none => []
             | some b => [(perHire cfg sO pO iO b).2])) := by
  intro hires
  induction hires with
  | nil => simp [processHires, Effects.concat, Effects.empty]
  | cons emp rest ih =>
    by_cases hok : calendarOk iO cfg emp
    · have hnone : (perHire cfg sO pO iO emp).1 = none := by
        rw [perHire_fst]
        exact exErr_eq_none _ hok
      have htake : List.takeWhile (calendarOk iO cfg) (emp :: rest) =
          emp :: List.takeWhile (calendarOk iO cfg) rest := by
        simp [List.takeWhile_cons, hok]
      have hdrop : List.dropWhile (calendarOk iO cfg) (emp :: rest) =
          List.dropWhile (calendarOk iO cfg) rest := by
        simp [List.dropWhile_cons, hok]
      rw [htake, hdrop]
      simp only [List.map_cons, List.cons_append, Effects.concat_cons]
      simp [processHires, hnone, ih]
    · have hsome : (perHire cfg sO pO iO emp).1 =
          exErr (create_day1_event iO cfg.calendarId cfg.timezone emp).1 :=
        perHire_fst cfg sO pO iO emp
      simp only [calendarOk, Bool.not_eq_true] at hok
      cases he : (create_day1_event iO cfg.calendarId cfg.timezone emp).1 with
      | ok v => rw [he] at hok; simp [exOk] at hok
      | error e =>
        rw [he] at hsome
        simp only [exErr] at hsome
        simp [processHires, hsome, List.takeWhile_cons, List.dropWhile_cons,
          calendarOk, he, exOk, Effects.concat, Effects.append_empty]

theorem send_email_fst (cfg : Config) (sO : EmailMsg → Except PyErr Unit)
    (emp : Employee) :
    (send_email_if_configured cfg sO emp).1 =
      (cfg.gmailUser == "" || cfg.gmailAppPassword == "" ||
        exOk (sO (emailMsgOf cfg emp))) := by
  simp only [send_email_if_configured]
  by_cases h : (cfg.gmailUser == "" || cfg.gmailAppPassword == "") = true
  · simp [h]
  · rw [if_neg h]
    simp only [Bool.or_eq_true] at h
    push_neg at h
    cases hp : sO (emailMsgOf cfg emp) <;>
      simp [hp, exOk, h.1, h.2]

theorem post_slack_fst (cfg : Config) (pO : SlackPost → Except PyErr Unit)
    (emp : Employee) :
    (post_slack_if_configured cfg pO emp).1 =
      (cfg.slackWebhook == "" || exOk (pO (slackPostOf cfg emp))) := by
  simp only [post_slack_if_configured]
  by_cases h : (cfg.slackWebhook == "") = true
  · simp [h]
  · rw [if_neg h]
    cases hp : pO (slackPostOf cfg emp) <;> simp [hp, exOk, h]

/-- C2: error handling is asymmetric across the three notifiers in the
per-hire loop.  (1) The loop's escaping exception is exactly the first
calendar-creation error along the hire list: calendar errors are not
caught and propagate.  (2) The loop's observable effects are those of the
hires before the first calendar failure plus those of the failing hire
itself — processing of all remaining hires is halted.  (3,4) The email and
chat notifiers are total: any transport/authentication error from their
oracles is caught and reported as the boolean `false` (the boolean is
`true` exactly when the channel is unconfigured or its call succeeded), so
those errors never decide whether the run aborts. -/
theorem claim_C2 (cfg : Config) (sO : EmailMsg → Except PyErr Unit)
    (pO : SlackPost → Except PyErr Unit)
    (iO : InsertCall → Except PyErr InsertedEvent) (hires : List Employee) :
    ((processHires cfg sO pO iO hires).1 =
      ((hires.dropWhile (calendarOk iO cfg)).head?).bind
        (fun b => exErr (create_day1_event iO cfg.calendarId cfg.timezone b).1)) ∧
    ((processHires cfg sO pO iO hires).2 =
      Effects.concat
        (((hires.takeWhile (calendarOk iO cfg)).map
            (fun e => (perHire cfg sO pO iO e).2)) ++
          (match (hires.dropWhile (calendarOk iO cfg)).head? with
           | none => []
           | some b => [(perHire cfg sO pO iO b).2]))) ∧
    (∀ emp, (send_email_if_configured cfg sO emp).1 =
      (cfg.gmailUser == "" || cfg.gmailAppPassword == "" ||
        exOk (sO (emailMsgOf cfg emp)))) ∧
    (∀ emp, (post_slack_if_configured cfg pO emp).1 =
      (cfg.slackWebhook == "" || exOk (pO (slackPostOf cfg emp)))) :=
  ⟨processHires_fst cfg sO pO iO hires, processHires_snd cfg sO pO iO hires,
   send_email_fst cfg sO, post_slack_fst cfg pO⟩

/-- C9: with no data-source identifier configured, `main` prints the
user-visible message "❗ Please set SHEET_ID in your .env" and exits as a
no-op: no exception, no fetch, no email, no chat post, no calendar
insert — nothing is processed. -/
theorem claim_C9 (cfg : Config) (today : Date)
    (fetchO : String → Except PyErr (List (List String)))
    (sO : EmailMsg → Except PyErr Unit) (pO : SlackPost → Except PyErr Unit)
    (iO : InsertCall → Except PyErr InsertedEvent) (h : cfg.sheetId = "") :
    OnboardBuddy.main cfg today fetchO sO pO iO =
      (none, printEff "❗ Please set SHEET_ID in your .env") := by
  simp [OnboardBuddy.main, h]

theorem claim_C9_witness :
    cfgNoSheet.sheetId = "" ∧
    OnboardBuddy.main cfgNoSheet today0 fetchNilO smtpOkO slackOkO insOkO =
      (none, printEff "❗ Please set SHEET_ID in your .env") :=
  ⟨rfl, claim_C9 cfgNoSheet today0 fetchNilO smtpOkO slackOkO insOkO rfl⟩
